import Mathlib

/-!
Verification development for the STEVE pipeline (`src/steve.py`).

The file gives a shallow embedding of the parts of `Pipeline` that the
claims are about:

* `process_files` (source lines 85–148): materialization of the File
  Entries declared in the Configuration Header, over an explicit
  filesystem state `FS` and an environment `Env` that models the
  external fetch / base64 / zip libraries.
* the request-shaping step (source lines 176–180) as `shapeBody`;
* the streaming normalization loops (source lines 217–237, local
  provider shape, and 246–264, remote provider shape) as
  `ollamaStream` / `openaiStream`;
* the provider-dispatch portion of `Pipeline.pipe`
  (source lines 198–267) as `pipeDispatch`.

Machine-level details that the source delegates to libraries
(`requests.get`, `base64.b64decode`, `zipfile`) are modelled as oracle
functions in `Env`; path strings are modelled as component lists.
-/

namespace Steve

/-- Paths are modelled as lists of components (`os.path.join` appends,
`os.path.dirname` drops the last component). -/
abbrev Path := List String

/-- File contents are modelled as lists of bytes. -/
abbrev Bytes := List Nat

/-- Explicit filesystem state: the set of existing directories and the
mapping from file paths to contents. -/
structure FS where
  dirs : List Path
  files : List (Path × Bytes)
deriving Repr, DecidableEq

/-- Model of `os.path.exists`: a path exists when it is a known
directory or a known file. -/
def FS.existsPath (fs : FS) (p : Path) : Bool :=
  decide (p ∈ fs.dirs) || decide (p ∈ fs.files.map Prod.fst)

/-- The nonempty ancestors of a path, the path itself included:
`os.makedirs` creates all of them. -/
def pathAncestors (p : Path) : List Path :=
  (List.range p.length).map (fun k => p.take (k + 1))

/-- Model of `os.makedirs(p, exist_ok=True)`: every ancestor of `p`
becomes an existing directory; file contents are untouched. -/
def FS.mkdirs (fs : FS) (p : Path) : FS :=
  { fs with dirs := pathAncestors p ++ fs.dirs }

/-- Model of `shutil.rmtree(p)`: every directory and file under `p`
(`p` itself included) is removed. -/
def FS.rmtree (fs : FS) (p : Path) : FS :=
  { dirs := fs.dirs.filter (fun q => !(p.isPrefixOf q)),
    files := fs.files.filter (fun f => !(p.isPrefixOf f.1)) }

/-- Model of `open(p, 'wb').write(data)`: the file at `p` now holds
`data`, any previous content replaced. -/
def FS.writeFile (fs : FS) (p : Path) (data : Bytes) : FS :=
  { fs with files := (p, data) :: fs.files.filter (fun f => !(f.1 == p)) }

/-- Model of `zipfile.ZipFile(...).extractall(path=p)`: each archive
member `(name, content)` is written under `p`. -/
def FS.extractTo (fs : FS) (p : Path) (es : List (String × Bytes)) : FS :=
  es.foldl (fun acc e => acc.writeFile (p ++ [e.1]) e.2) fs

/-- One File Entry of the header's `files` mapping (source lines
92–96): the `url` key is optional (an entry without it is skipped), and
`save` / `overwrite` / `extract` default to `True` via `dict.get`.
`path` models the `file_info["path"]` key written on line 113 and
`file` the in-memory `file_info["file"]` handle written on line 141. -/
structure FileInfo where
  url : Option String := none
  save : Bool := true
  overwrite : Bool := true
  extract : Bool := true
  path : Option Path := none
  file : Option Bytes := none
deriving Repr, DecidableEq

/-- The messages printed by `process_files`, one constructor per
`print` / `self.log` call site, carrying the interpolated path or entry
name. -/
inductive LogMsg where
  | errorCreatingDir (p : Path)
  | dirRecreated (p : Path)
  | skippingZip (name : Path)
  | zipExtracted (p : Path)
  | fileSaved (p : Path)
  | errorSavingFile (name : Path)
  | errorProcessingFiles (name : Path)
deriving Repr, DecidableEq

/-- Oracle environment for the external libraries used by
`process_files`: `fetch` models `requests.get` (`none` is a
`RequestException` / failed `raise_for_status`), `b64decode` models
`base64.b64decode` (`none` is a `binascii.Error`), `zipEntries` models
reading a zip archive (`none` is a `BadZipFile`), and `badDirs` is the
set of paths on which `os.makedirs` raises `OSError`. -/
structure Env where
  fetch : String → Option Bytes
  b64decode : String → Option Bytes
  zipEntries : Bytes → Option (List (String × Bytes))
  badDirs : List Path

/-- Python `str.startswith`, computed on the character list. -/
def strStartsWith (s p : String) : Bool :=
  p.data.isPrefixOf s.data

/-- Python `str.endswith`, computed on the character list. -/
def strEndsWith (s p : String) : Bool :=
  p.data.isSuffixOf s.data

/-- The characters after the first comma, or `none` when there is no
comma. -/
def charsAfterComma : List Char → Option (List Char)
  | [] => none
  | c :: cs => if c = ',' then some cs else charsAfterComma cs

/-- Python `url.split(",", 1)[1]`: the part after the first comma, or
`none` when there is no comma (an uncaught `IndexError` in the
source). -/
def afterFirstComma (s : String) : Option String :=
  (charsAfterComma s.data).map fun cs => String.mk cs

/-- Outcome of resolving an entry's source bytes (source lines
100–108). `caughtErr` is an exception caught by the per-entry handler
on line 143; `outerErr` is an `IndexError` from the comma split, which
only the outer handler on line 145 catches. Both make `process_files`
return. -/
inductive Resolved where
  | ok (data : Bytes)
  | caughtErr
  | outerErr
deriving Repr, DecidableEq

/-- Resolution of an entry's source bytes: a `data:` url is
base64-decoded after the first comma, any other url is fetched. -/
def resolveBytes (env : Env) (url : String) : Resolved :=
  if strStartsWith url "data:" then
    match afterFirstComma url with
    | none => .outerErr
    | some payload =>
      match env.b64decode payload with
      | none => .caughtErr
      | some d => .ok d
  else
    match env.fetch url with
    | none => .caughtErr
    | some d => .ok d

/-- Outcome of processing one File Entry: `ok` continues the loop over
the remaining entries, `abort` models the `return self.log(...)`
statements that end `process_files` as a whole. Both carry the entry's
final state, the filesystem and the log messages produced. -/
inductive EntryOut where
  | ok (info : FileInfo) (fs : FS) (log : List LogMsg)
  | abort (info : FileInfo) (fs : FS) (log : List LogMsg)
deriving Repr, DecidableEq

/-- One iteration of the `for filename in files.keys()` loop of
`process_files` (source lines 90–144), translated branch by branch:
entries without `url` are skipped; resolution failures `return`;
if `save` is true the parent directory `path` is recorded on the entry
and created with `makedirs` (an `OSError` there `return`s); a `.zip`
target with `extract` set is either destructively re-extracted
(`overwrite` true), or skipped with a `return` when `overwrite` is
false and the destination exists; a plain file is written when
`overwrite` is true or the target is absent; with `save` false the
`url` key is popped and the bytes attached as the `file` handle. -/
def processEntry (env : Env) (root : Path) (name : Path) (info : FileInfo)
    (fs : FS) : EntryOut :=
  match info.url with
  | none => .ok info fs []
  | some url =>
    match resolveBytes env url with
    | .outerErr => .abort info fs [.errorProcessingFiles name]
    | .caughtErr => .abort info fs [.errorSavingFile name]
    | .ok data =>
      if info.save then
        let full_path := root ++ name
        let path := full_path.dropLast
        let info1 := { info with path := some path }
        if env.badDirs.contains path then
          .abort info1 fs [.errorCreatingDir path]
        else
          let fs1 := fs.mkdirs path
          if strEndsWith (name.getLastD "") ".zip" && info.extract then
            let step :=
              if fs1.existsPath path && info.overwrite then
                ((fs1.rmtree path).mkdirs path, [LogMsg.dirRecreated path])
              else (fs1, [])
            let fs2 := step.1
            let log2 := step.2
            if !info.overwrite && fs2.existsPath path then
              .abort info1 fs2 (log2 ++ [.skippingZip name])
            else
              match env.zipEntries data with
              | none => .abort info1 fs2 (log2 ++ [.errorSavingFile name])
              | some es =>
                .ok info1 (fs2.extractTo path es) (log2 ++ [.zipExtracted path])
          else
            if info.overwrite || !fs1.existsPath full_path then
              .ok info1 (fs1.writeFile full_path data) [.fileSaved full_path]
            else
              .ok info1 fs1 []
      else
        .ok { info with url := none, file := some data } fs []

/-- The Configuration Header keys that `Pipeline.pipe` and
`process_files` consult: the provider-selector cluster, the optional
endpoint override `url`, and the declared File Entries. -/
structure Header where
  ollama_url : Option String := none
  open_ai_api_key : Option String := none
  model : Option String := none
  url : Option String := none
  files : List (Path × FileInfo) := []

/-- Result of `process_files`: `result` is the Python return value
(`none` models the `return self.log(...)` paths, which return `None`),
`entries` the final state of the mutated `files` dict (processed
entries updated, entries after an abort untouched), plus the filesystem
and log. -/
structure PFResult where
  result : Option (List (Path × FileInfo))
  entries : List (Path × FileInfo)
  fs : FS
  log : List LogMsg
deriving Repr, DecidableEq

/-- The entry loop of `process_files`: entries are processed in order;
the first `abort` ends the function with a `None` result, leaving the
remaining entries untouched. -/
def processFilesGo (env : Env) (root : Path) :
    List (Path × FileInfo) → FS → List (Path × FileInfo) → List LogMsg → PFResult
  | [], fs, acc, log =>
    { result := some acc.reverse, entries := acc.reverse, fs := fs, log := log }
  | (n, i) :: rest, fs, acc, log =>
    match processEntry env root n i fs with
    | .ok i1 fs1 l => processFilesGo env root rest fs1 ((n, i1) :: acc) (log ++ l)
    | .abort i1 fs1 l =>
      { result := none, entries := acc.reverse ++ (n, i1) :: rest,
        fs := fs1, log := log ++ l }

/-- `Pipeline.process_files(header, temp_dir_path)` (source lines
85–148): iterates over the header's declared File Entries and returns
the `files` mapping, or `None` when one of the `return self.log(...)`
paths is taken. -/
def process_files (env : Env) (header : Header) (root : Path) (fs : FS) : PFResult :=
  processFilesGo env root header.files fs [] []

/-- One role-tagged chat message. -/
structure Message where
  role : String
  content : String
deriving Repr, DecidableEq

/-- The mutable request `body`: its ordered message list and the
streaming flag. -/
structure Body where
  messages : List Message
  stream : Bool
deriving Repr, DecidableEq

/-- The response-processor capability: `process` maps one input
fragment to output fragments, `final` is the sequence produced by the
finalization call. The source's processors are objects whose two
methods we model as pure functions. -/
structure Processor where
  process : String → List String
  final : List String

/-- The default `CustomResponse` class (source lines 182–190):
`process` echoes its argument as a single fragment and `final` yields
nothing. -/
def defaultProcessor : Processor :=
  { process := fun t => [t], final := [] }

/-- The hook mapping found after template rendering. The `pipe` hook is
modelled by the sequence it yields for this request, the `outlet` hook
by the processor its instantiation produces. -/
structure Hooks where
  pipe : Option (List String) := none
  inlet : Option (Body → Body) := none
  outlet : Option Processor := none

/-- The request-shaping step of `Pipeline.pipe` (source lines
176–180): drop every message with role `system`, insert the rendered
prompt as a new system message at index 0, then apply the `inlet` hook
(identity when absent). -/
def shapeBody (hooks : Hooks) (system : String) (body : Body) : Body :=
  let msgs := body.messages.filter (fun m => !(m.role == "system"))
  let shaped : Body := { body with messages := ⟨"system", system⟩ :: msgs }
  (hooks.inlet.getD id) shaped

/-- One raw streaming chunk, seen through the accesses the two loops
perform on it. `message` models `chunk['message']['content']` (outer
`none`: the access raises; inner `none`: the value is Python `None`),
`done` models `chunk['done']` (`none`: the access raises), `delta`
models `chunk.choices[0].delta.content` and `finish` models
`chunk.choices[0].finish_reason`, with the same conventions. -/
structure RawChunk where
  message : Option (Option String) := none
  done : Option Bool := none
  delta : Option (Option String) := none
  finish : Option (Option String) := none
deriving Repr, DecidableEq

/-- The diagnostic fragment `f"Failed to process chunk {e}"` yielded by
the two `except` handlers; the interpolated exception text is elided. -/
def failMsg : String := "Failed to process chunk"

/-- The body of the local-provider streaming loop (source lines
218–231) for one chunk: extract `chunk['message']['content'] or ""`
(a raising access yields the diagnostic fragment instead), emit the
processor's fragments for the line, then check `chunk["done"] == True`
and emit the finalization fragments when it holds; a raising `done`
access yields the diagnostic fragment after the already-emitted
line fragments. -/
def processOllamaChunk (proc : Processor) (c : RawChunk) : List String :=
  match c.message with
  | none => [failMsg]
  | some mc =>
    let line := mc.getD ""
    let frags := proc.process line
    match c.done with
    | none => frags ++ [failMsg]
    | some d => if d then frags ++ proc.final else frags

/-- The local-provider streaming loop (source lines 217–231): every
chunk of the response is consumed in order; the loop never breaks. -/
def ollamaStream (proc : Processor) (chunks : List RawChunk) : List String :=
  chunks.flatMap (processOllamaChunk proc)

/-- The body of the remote-provider streaming loop (source lines
247–258) for one chunk: extract `chunk.choices[0].delta.content or ""`
(a raising access yields the diagnostic fragment instead), emit the
processor's fragments, then emit the finalization fragments when
`chunk.choices[0].finish_reason == 'stop'`; a raising `finish_reason`
access yields the diagnostic fragment after the line fragments. -/
def processOpenAIChunk (proc : Processor) (c : RawChunk) : List String :=
  match c.delta with
  | none => [failMsg]
  | some d =>
    let line := d.getD ""
    let frags := proc.process line
    match c.finish with
    | none => frags ++ [failMsg]
    | some f => if f = some "stop" then frags ++ proc.final else frags

/-- The remote-provider streaming loop (source lines 246–258): every
chunk of the response is consumed in order; the loop never breaks. -/
def openaiStream (proc : Processor) (chunks : List RawChunk) : List String :=
  chunks.flatMap (processOpenAIChunk proc)

/-- The provider responses available to the dispatcher, supplied by the
environment: the chunk sequence of a streaming response and the message
content of a non-streaming one, for each provider. -/
structure ProviderEnv where
  ollamaChunks : List RawChunk := []
  ollamaMessage : String := ""
  openaiChunks : List RawChunk := []
  openaiMessage : String := ""

/-- The output of `Pipeline.pipe` as the host sees it: the fragments
yielded by the generator, and the exception that escaped it, if any. -/
structure StreamOut where
  frags : List String
  err : Option String
deriving Repr, DecidableEq

/-- The provider-dispatch portion of `Pipeline.pipe` (source lines
192–267). Branch order as in the source: a `pipe` hook delegates fully
(lines 202–207: per yielded element, the processor's fragments then its
finalization fragments); otherwise the `ollama_url`+`model` branch is
taken — which in the source raises `NameError` on line 214, where
`Client(host = ollama_url)` references the undefined name `ollama_url`
(the assigned variable is `OLLAMA_URL`), so the generator dies before
yielding; otherwise the `open_ai_api_key`+`model` branch streams
through `openaiStream` or processes the single message; otherwise the
fallback on line 267 yields the single fragment `f"system: {system}"`. -/
def pipeDispatch (hooks : Hooks) (header : Header) (system : String)
    (body : Body) (penv : ProviderEnv) : StreamOut :=
  let proc := hooks.outlet.getD defaultProcessor
  match hooks.pipe with
  | some ps =>
    { frags := ps.flatMap (fun p => proc.process p ++ proc.final), err := none }
  | none =>
    if header.ollama_url.isSome && header.model.isSome then
      { frags := [], err := some "NameError: ollama_url is not defined" }
    else if header.open_ai_api_key.isSome && header.model.isSome then
      if body.stream then
        { frags := openaiStream proc penv.openaiChunks, err := none }
      else
        { frags := proc.process penv.openaiMessage ++ proc.final, err := none }
    else
      { frags := ["system: " ++ system], err := none }

/-- Concrete oracle environment used by witnesses and counterexamples:
fetching always fails, base64 decoding succeeds exactly on the payload
`G` (yielding the byte `7`), archives never open, and no directory
creation fails. -/
def envW : Env :=
  { fetch := fun _ => none,
    b64decode := fun s => if s = "G" then some [7] else none,
    zipEntries := fun _ => none,
    badDirs := [] }

/-- An empty filesystem. -/
def fsEmpty : FS := { dirs := [], files := [] }

/-- A filesystem in which the working directory `r` already exists. -/
def fsR : FS := { dirs := [["r"]], files := [] }

/-- File Entry with a decodable inline source, all flags default. -/
def entryB : Path × FileInfo := (["b.txt"], { url := some "data:,G" })

/-- File Entry whose inline source fails to base64-decode. -/
def entryA : Path × FileInfo := (["a.txt"], { url := some "data:,BAD" })

/-- Archive File Entry with `overwrite=False`, other flags default. -/
def zipEntryW : Path × FileInfo :=
  (["a.zip"], { url := some "data:,G", overwrite := false })

/-! Helper lemmas about the filesystem model and the list combinators. -/

theorem mem_pathAncestors_self (p : Path) (h : p ≠ []) : p ∈ pathAncestors p := by
  have hl : 0 < p.length := List.length_pos.mpr h
  refine List.mem_map.mpr ⟨p.length - 1, List.mem_range.mpr (by omega), ?_⟩
  rw [Nat.sub_add_cancel hl, List.take_length]

theorem FS.existsPath_mkdirs_self (fs : FS) (p : Path) (h : p ≠ []) :
    (fs.mkdirs p).existsPath p = true := by
  have := mem_pathAncestors_self p h
  simp [FS.existsPath, FS.mkdirs, List.mem_append, this]

theorem FS.existsPath_mkdirs_mono (fs : FS) (p q : Path)
    (h : fs.existsPath p = true) : (fs.mkdirs q).existsPath p = true := by
  simp [FS.existsPath, FS.mkdirs, List.mem_append] at h ⊢
  tauto

theorem countP_system_filter (l : List Message) :
    (l.filter (fun m => !(m.role == "system"))).countP
      (fun m => m.role == "system") = 0 := by
  rw [List.countP_filter]
  simp

theorem flatMap_const_single (ps : List String) :
    (ps.flatMap fun _ => ["x"]) = List.replicate ps.length "x" := by
  induction ps with
  | nil => rfl
  | cons a t ih => simp [List.flatMap_cons, ih, List.replicate_succ]

theorem processOpenAIChunk_default_valid (a : String) (m : Option (Option String))
    (dn : Option Bool) (f : Option String) :
    processOpenAIChunk defaultProcessor ⟨m, dn, some (some a), some f⟩ = [a] := by
  simp only [processOpenAIChunk, defaultProcessor]
  split <;> simp

theorem processOllamaChunk_default_valid (a : String) (d : Bool)
    (dl f : Option (Option String)) :
    processOllamaChunk defaultProcessor ⟨some (some a), some d, dl, f⟩ = [a] := by
  simp only [processOllamaChunk, defaultProcessor]
  split <;> simp

theorem processOpenAIChunk_no_delta (proc : Processor) (m : Option (Option String))
    (dn : Option Bool) (f : Option (Option String)) :
    processOpenAIChunk proc ⟨m, dn, none, f⟩ = [failMsg] := rfl

theorem processOllamaChunk_no_message (proc : Processor) (dn : Option Bool)
    (dl f : Option (Option String)) :
    processOllamaChunk proc ⟨none, dn, dl, f⟩ = [failMsg] := rfl

/-! Claim theorems. -/

/-- C1 (counterexample): with an empty header, no hooks and rendered
prompt `hello`, the fallback branch yields the single fragment
`system: hello`, which is not the rendered prompt text itself. -/
theorem C1_counterexample :
    pipeDispatch {} {} "hello" ⟨[], false⟩ {} = ⟨["system: hello"], none⟩ ∧
    ("system: hello" : String) ≠ "hello" := by
  constructor
  · decide
  · decide

/-- C1 (amended): when the header declares neither provider-selector
cluster and no `pipe` hook exists, the output is exactly one fragment,
whose text is the rendered prompt text prefixed with `system: `, and
the generator completes without error. -/
theorem C1_fallback_prefixed (hooks : Hooks) (hdr : Header) (s : String)
    (b : Body) (penv : ProviderEnv)
    (hp : hooks.pipe = none)
    (h1 : (hdr.ollama_url.isSome && hdr.model.isSome) = false)
    (h2 : (hdr.open_ai_api_key.isSome && hdr.model.isSome) = false) :
    pipeDispatch hooks hdr s b penv = ⟨["system: " ++ s], none⟩ := by
  simp [pipeDispatch, hp, h1, h2]

/-- C1 (witness): the amended theorem applied to an empty header and
empty hook set. -/
theorem C1_fallback_witness :
    pipeDispatch {} {} "hi" ⟨[], true⟩ {} = ⟨["system: hi"], none⟩ :=
  C1_fallback_prefixed {} {} "hi" ⟨[], true⟩ {} rfl rfl rfl

/-- C4 (counterexample): in the remote-provider loop a chunk carrying a
valid local-provider shape (`message.content` with `done`) but no
remote shape yields the diagnostic fragment instead of its content, and
symmetrically in the local-provider loop — no branch falls back to the
other provider's delta shape. -/
theorem C4_counterexample :
    openaiStream defaultProcessor [⟨some (some "X"), some false, none, none⟩]
      = [failMsg] ∧
    "X" ∉ openaiStream defaultProcessor [⟨some (some "X"), some false, none, none⟩] ∧
    ollamaStream defaultProcessor [⟨none, none, some (some "Y"), some (some "stop")⟩]
      = [failMsg] ∧
    "Y" ∉ ollamaStream defaultProcessor [⟨none, none, some (some "Y"), some (some "stop")⟩] := by
  refine ⟨rfl, by decide, rfl, by decide⟩

/-- C4 (amended): each streaming branch attempts only its own
provider's delta shape. The remote-provider chunk processor depends
only on the `delta` and `finish` fields and maps any chunk without the
remote shape to the diagnostic fragment; the local-provider chunk
processor depends only on the `message` and `done` fields and maps any
chunk without the local shape to the diagnostic fragment. -/
theorem C4_branch_ignores_other_shape :
    (∀ (proc : Processor) (c1 c2 : RawChunk), c1.delta = c2.delta →
       c1.finish = c2.finish →
       processOpenAIChunk proc c1 = processOpenAIChunk proc c2) ∧
    (∀ (proc : Processor) (c1 c2 : RawChunk), c1.message = c2.message →
       c1.done = c2.done →
       processOllamaChunk proc c1 = processOllamaChunk proc c2) ∧
    (∀ (proc : Processor) (m : Option (Option String)) (dn : Option Bool)
       (f : Option (Option String)),
       processOpenAIChunk proc ⟨m, dn, none, f⟩ = [failMsg]) ∧
    (∀ (proc : Processor) (dn : Option Bool) (dl f : Option (Option String)),
       processOllamaChunk proc ⟨none, dn, dl, f⟩ = [failMsg]) := by
  refine ⟨?_, ?_, fun _ _ _ _ => rfl, fun _ _ _ _ => rfl⟩
  · intro proc c1 c2 h1 h2
    simp only [processOpenAIChunk, h1, h2]
  · intro proc c1 c2 h1 h2
    simp only [processOllamaChunk, h1, h2]

/-- C4 (witness): the amended theorem applied to two concrete chunks
that agree on the remote-shape fields but differ on the local-shape
fields. -/
theorem C4_witness :
    processOpenAIChunk defaultProcessor ⟨none, none, some (some "a"), some none⟩
      = processOpenAIChunk defaultProcessor
          ⟨some (some "z"), some true, some (some "a"), some none⟩ :=
  C4_branch_ignores_other_shape.1 defaultProcessor
    ⟨none, none, some (some "a"), some none⟩
    ⟨some (some "z"), some true, some (some "a"), some none⟩ rfl rfl

/-- C6: for a File Entry with `save=false` whose source bytes resolve,
no filesystem state changes, the resolved bytes are attached to the
entry as the in-memory `file` handle, the `url` key is removed, and
nothing is logged. -/
theorem C6_save_false_in_memory (env : Env) (root n : Path) (u : String)
    (ow ex : Bool) (p0 : Option Path) (f0 : Option Bytes) (fs : FS) (data : Bytes)
    (hres : resolveBytes env u = .ok data) :
    processEntry env root n ⟨some u, false, ow, ex, p0, f0⟩ fs
      = .ok ⟨none, false, ow, ex, p0, some data⟩ fs [] := by
  simp [processEntry, hres]

/-- C6 (witness): the theorem applied to a concrete inline-encoded
entry with `save=false`. -/
theorem C6_witness :
    processEntry envW ["r"] ["c.bin"] ⟨some "data:,G", false, true, true, none, none⟩
      fsEmpty = .ok ⟨none, false, true, true, none, some [7]⟩ fsEmpty [] :=
  C6_save_false_in_memory envW ["r"] ["c.bin"] "data:,G" true true none none
    fsEmpty [7] (by decide)

/-- C7: in both streaming loops, a chunk whose delta extraction fails,
interleaved between two valid chunks, contributes exactly the
diagnostic fragment; the stream is not aborted and both valid chunks'
content appears in the output in order. -/
theorem C7_malformed_chunk_isolated (a b : String)
    (m1 m2 : Option (Option String)) (dn1 dn2 bd bd2 : Option Bool)
    (f1 f2 : Option String) (bm : Option (Option String))
    (bf : Option (Option String)) (d1 d2 : Bool)
    (x1 x2 x3 y1 y2 y3 : Option (Option String)) :
    openaiStream defaultProcessor
      [⟨m1, dn1, some (some a), some f1⟩, ⟨bm, bd, none, bf⟩,
       ⟨m2, dn2, some (some b), some f2⟩] = [a, failMsg, b] ∧
    ollamaStream defaultProcessor
      [⟨some (some a), some d1, x1, y1⟩, ⟨none, bd2, x2, y2⟩,
       ⟨some (some b), some d2, x3, y3⟩] = [a, failMsg, b] := by
  constructor
  · simp [openaiStream, List.flatMap_cons, processOpenAIChunk_default_valid,
      processOpenAIChunk_no_delta]
  · simp [ollamaStream, List.flatMap_cons, processOllamaChunk_default_valid,
      processOllamaChunk_no_message]

/-- C9: when a `pipe` hook is present, the dispatcher emits, for every
element the hook yields, the processor's fragments for that element
followed by the finalization fragments — `final()` runs once per pipe
element, not once at the end. With a processor that drops every
fragment and finalizes with one marker fragment, the output is the
marker repeated once per pipe element. -/
theorem C9_final_after_each_pipe_fragment (proc : Processor) (ps : List String)
    (inl : Option (Body → Body)) (hdr : Header) (s : String) (b : Body)
    (penv : ProviderEnv) :
    (pipeDispatch ⟨some ps, inl, some proc⟩ hdr s b penv).frags
      = ps.flatMap (fun p => proc.process p ++ proc.final) ∧
    (pipeDispatch ⟨some ps, inl, some ⟨fun _ => [], ["x"]⟩⟩ hdr s b penv).frags
      = List.replicate ps.length "x" := by
  constructor
  · rfl
  · simp only [pipeDispatch]
    simpa using flatMap_const_single ps

/-- C2 (counterexample): with two declared entries whose first fails to
base64-decode, `process_files` returns `None`, the second entry is
never materialized (no file is written) and is left untouched at the
end of the entries list — although the second entry alone materializes
fine. -/
theorem C2_counterexample :
    (process_files envW { files := [entryA, entryB] } ["r"] fsEmpty).result = none ∧
    (process_files envW { files := [entryA, entryB] } ["r"] fsEmpty).fs.files = [] ∧
    (process_files envW { files := [entryA, entryB] } ["r"] fsEmpty).entries.getLast?
      = some entryB ∧
    (process_files envW { files := [entryB] } ["r"] fsEmpty).result
      = some [(["b.txt"], ⟨some "data:,G", true, true, true, some ["r"], none⟩)] ∧
    (process_files envW { files := [entryB] } ["r"] fsEmpty).fs.files
      = [(["r", "b.txt"], [7])] := by
  refine ⟨by decide, by decide, by decide, by decide, by decide⟩

/-- C2 (amended): a failure of one entry (decode error, fetch error,
filesystem error, corrupt archive) is not isolated: any aborting entry
ends the whole materialization step — `process_files` returns `None`
and every remaining declared entry is left unprocessed, exactly as in
the directory-creation case. -/
theorem C2_entry_failure_aborts_step (env : Env) (root n : Path)
    (i i1 : FileInfo) (fs fs1 : FS) (l : List LogMsg)
    (rest : List (Path × FileInfo))
    (h : processEntry env root n i fs = .abort i1 fs1 l) :
    process_files env { files := (n, i) :: rest } root fs
      = { result := none, entries := (n, i1) :: rest, fs := fs1, log := l } := by
  simp [process_files, processFilesGo, h]

/-- C2 (witness): the amended theorem applied to a concrete entry whose
inline payload fails to decode, followed by one more declared entry. -/
theorem C2_witness :
    process_files envW
      { files := (["a.txt"], ⟨some "data:,BAD", true, true, true, none, none⟩)
          :: [entryB] } ["r"] fsEmpty
      = { result := none,
          entries := (["a.txt"], ⟨some "data:,BAD", true, true, true, none, none⟩)
            :: [entryB],
          fs := fsEmpty, log := [.errorSavingFile ["a.txt"]] } :=
  C2_entry_failure_aborts_step envW ["r"] ["a.txt"]
    ⟨some "data:,BAD", true, true, true, none, none⟩
    ⟨some "data:,BAD", true, true, true, none, none⟩
    fsEmpty fsEmpty [.errorSavingFile ["a.txt"]] [entryB] (by decide)

/-- C3 (counterexample): with a finalizer that yields `END`, the
remote-provider loop applied to a completion chunk (`finish_reason`
equal to `stop`) followed by another content chunk keeps consuming: the
later chunk's content `B` still appears, and the finalizer runs again
at the second completion chunk — the output is not truncated at the
first completion. -/
theorem C3_counterexample :
    openaiStream ⟨fun t => [t], ["END"]⟩
      [⟨none, none, some (some "A"), some (some "stop")⟩,
       ⟨none, none, some (some "B"), some (some "stop")⟩]
      = ["A", "END", "B", "END"] ∧
    openaiStream ⟨fun t => [t], ["END"]⟩
      [⟨none, none, some (some "A"), some (some "stop")⟩,
       ⟨none, none, some (some "B"), some (some "stop")⟩]
      ≠ ["A", "END"] := by
  refine ⟨by decide, by decide⟩

/-- C3 (amended): on detecting completion (`finish_reason` equal to
`stop` in the remote shape, `done` true in the local shape as written),
the normalizer yields the finalization fragments at that chunk but does
not stop: the loop never breaks, so every following chunk is still
consumed and normalized identically, and a later completion chunk
triggers the finalization fragments again. -/
theorem C3_completion_does_not_stop_stream :
    (∀ (proc : Processor) (pre post : List RawChunk)
       (m : Option (Option String)) (dn : Option Bool) (d : Option String),
       openaiStream proc (pre ++ ⟨m, dn, some d, some (some "stop")⟩ :: post)
         = openaiStream proc pre ++ (proc.process (d.getD "") ++ proc.final)
             ++ openaiStream proc post) ∧
    (∀ (proc : Processor) (pre post : List RawChunk) (m : Option String)
       (dl f : Option (Option String)),
       ollamaStream proc (pre ++ ⟨some m, some true, dl, f⟩ :: post)
         = ollamaStream proc pre ++ (proc.process (m.getD "") ++ proc.final)
             ++ ollamaStream proc post) := by
  constructor
  · intro proc pre post m dn d
    simp [openaiStream, List.flatMap_append, List.flatMap_cons,
      processOpenAIChunk]
  · intro proc pre post m dl f
    simp [ollamaStream, List.flatMap_append, List.flatMap_cons,
      processOllamaChunk]

/-- C5 (counterexample): a `.zip` entry with `overwrite=false` against
an existing destination is skipped with the warning and leaves file
contents byte-identical, but it is a hard failure for the
materialization step: `process_files` returns `None` and the following
declared entry is left unmaterialized. -/
theorem C5_counterexample :
    (process_files envW { files := [zipEntryW, entryB] } ["r"] fsR).result = none ∧
    (process_files envW { files := [zipEntryW, entryB] } ["r"] fsR).log
      = [.skippingZip ["a.zip"]] ∧
    (process_files envW { files := [zipEntryW, entryB] } ["r"] fsR).fs.files
      = fsR.files ∧
    (process_files envW { files := [zipEntryW, entryB] } ["r"] fsR).entries.getLast?
      = some entryB := by
  refine ⟨by decide, by decide, by decide, by decide⟩

/-- C5 (amended): for a `.zip` target with `save=true`, `extract=true`
and `overwrite=false` whose destination exists, extraction is skipped,
the warning is logged and the existing file contents are left
byte-identical — but the skip is a `return`: `process_files` ends with
a `None` result and every remaining declared entry stays
unprocessed. -/
theorem C5_zip_skip_aborts_step (env : Env) (root n : Path) (u : String)
    (p0 : Option Path) (f0 : Option Bytes) (fs : FS) (data : Bytes)
    (rest : List (Path × FileInfo))
    (hres : resolveBytes env u = .ok data)
    (hzip : strEndsWith (n.getLastD "") ".zip" = true)
    (hdir : env.badDirs.contains ((root ++ n).dropLast) = false)
    (hex : fs.existsPath ((root ++ n).dropLast) = true) :
    process_files env { files := (n, ⟨some u, true, false, true, p0, f0⟩) :: rest }
        root fs
      = { result := none,
          entries := (n, ⟨some u, true, false, true,
            some ((root ++ n).dropLast), f0⟩) :: rest,
          fs := fs.mkdirs ((root ++ n).dropLast),
          log := [.skippingZip n] } ∧
    (fs.mkdirs ((root ++ n).dropLast)).files = fs.files := by
  have hex1 : (fs.mkdirs ((root ++ n).dropLast)).existsPath
      ((root ++ n).dropLast) = true :=
    FS.existsPath_mkdirs_mono fs ((root ++ n).dropLast) ((root ++ n).dropLast) hex
  have hdir2 : (root ++ n).dropLast ∉ env.badDirs := by simpa using hdir
  have hzip2 : strEndsWith ((n.getLast?).getD "") ".zip" = true := by
    simpa [List.getLastD_eq_getLast?] using hzip
  have hentry : processEntry env root n ⟨some u, true, false, true, p0, f0⟩ fs
      = .abort ⟨some u, true, false, true, some ((root ++ n).dropLast), f0⟩
          (fs.mkdirs ((root ++ n).dropLast)) [.skippingZip n] := by
    simp [processEntry, hres, hdir2, hzip2, hex1]
  refine ⟨?_, rfl⟩
  simp [process_files, processFilesGo, hentry]

/-- C5 (witness): the amended theorem applied to a concrete archive
entry against a pre-existing working directory, with one more declared
entry after it. -/
theorem C5_witness :
    process_files envW
      { files := (["a.zip"], ⟨some "data:,G", true, false, true, none, none⟩)
          :: [entryB] } ["r"] fsR
      = { result := none,
          entries := (["a.zip"], ⟨some "data:,G", true, false, true,
            some ((["r"] ++ ["a.zip"]).dropLast), none⟩) :: [entryB],
          fs := fsR.mkdirs ((["r"] ++ ["a.zip"]).dropLast),
          log := [.skippingZip ["a.zip"]] } ∧
    (fsR.mkdirs ((["r"] ++ ["a.zip"]).dropLast)).files = fsR.files :=
  C5_zip_skip_aborts_step envW ["r"] ["a.zip"] "data:,G" none none fsR [7]
    [entryB] (by decide) (by decide) (by decide) (by decide)

/-- C8: with no `inlet` hook (the default shaping path), the shaped
request's message list has the rendered prompt as a system-role message
at index 0, contains exactly one system-role message, and every other
message is non-system (all previously present system messages were
removed). -/
theorem C8_default_shaping (hooks : Hooks) (s : String) (b : Body)
    (h : hooks.inlet = none) :
    (shapeBody hooks s b).messages.head? = some ⟨"system", s⟩ ∧
    (shapeBody hooks s b).messages.countP (fun m => m.role == "system") = 1 ∧
    ∀ m ∈ (shapeBody hooks s b).messages.tail, ¬ m.role = "system" := by
  simp only [shapeBody, h, Option.getD_none, id_eq]
  refine ⟨rfl, ?_, ?_⟩
  · rw [List.countP_cons]
    simp [countP_system_filter]
  · intro m hm
    simp only [List.tail_cons] at hm
    have hmem := List.mem_filter.mp hm
    simpa using hmem.2

/-- C8 (witness): the theorem applied to a request that already carries
a system message. -/
theorem C8_witness :
    (shapeBody {} "p" ⟨[⟨"system", "old"⟩, ⟨"user", "hi"⟩], true⟩).messages.head?
      = some ⟨"system", "p"⟩ ∧
    (shapeBody {} "p" ⟨[⟨"system", "old"⟩, ⟨"user", "hi"⟩], true⟩).messages.countP
      (fun m => m.role == "system") = 1 ∧
    ∀ m ∈ (shapeBody {} "p" ⟨[⟨"system", "old"⟩, ⟨"user", "hi"⟩], true⟩).messages.tail,
      ¬ m.role = "system" :=
  C8_default_shaping {} "p" ⟨[⟨"system", "old"⟩, ⟨"user", "hi"⟩], true⟩ rfl

/-- C10: for a `.zip` target with `save=true`, `extract=true` and
`overwrite=false`, extraction never occurs and the entry aborts the
step with the skip warning even when the destination directory did not
exist before the request — `makedirs` on the parent directory runs
immediately before the existence check that gates extraction, so that
check always finds the directory present. File contents are
untouched. -/
theorem C10_mkdirs_defeats_existence_check (env : Env) (root n : Path)
    (u : String) (p0 : Option Path) (f0 : Option Bytes) (fs : FS) (data : Bytes)
    (hres : resolveBytes env u = .ok data)
    (hzip : strEndsWith (n.getLastD "") ".zip" = true)
    (hdir : env.badDirs.contains ((root ++ n).dropLast) = false)
    (hne : (root ++ n).dropLast ≠ [])
    (hnew : fs.existsPath ((root ++ n).dropLast) = false) :
    processEntry env root n ⟨some u, true, false, true, p0, f0⟩ fs
      = .abort ⟨some u, true, false, true, some ((root ++ n).dropLast), f0⟩
          (fs.mkdirs ((root ++ n).dropLast)) [.skippingZip n] ∧
    (fs.mkdirs ((root ++ n).dropLast)).files = fs.files := by
  have hex1 : (fs.mkdirs ((root ++ n).dropLast)).existsPath
      ((root ++ n).dropLast) = true :=
    FS.existsPath_mkdirs_self fs ((root ++ n).dropLast) hne
  have hdir2 : (root ++ n).dropLast ∉ env.badDirs := by simpa using hdir
  have hzip2 : strEndsWith ((n.getLast?).getD "") ".zip" = true := by
    simpa [List.getLastD_eq_getLast?] using hzip
  refine ⟨?_, rfl⟩
  simp [processEntry, hres, hdir2, hzip2, hex1]

/-- C10 (witness): the theorem applied to a concrete archive entry on
an empty filesystem, where the destination directory does not exist
before the request. -/
theorem C10_witness :
    processEntry envW ["r"] ["a.zip"] ⟨some "data:,G", true, false, true, none, none⟩
        fsEmpty
      = .abort ⟨some "data:,G", true, false, true,
          some ((["r"] ++ ["a.zip"]).dropLast), none⟩
          (fsEmpty.mkdirs ((["r"] ++ ["a.zip"]).dropLast)) [.skippingZip ["a.zip"]] ∧
    (fsEmpty.mkdirs ((["r"] ++ ["a.zip"]).dropLast)).files = fsEmpty.files :=
  C10_mkdirs_defeats_existence_check envW ["r"] ["a.zip"] "data:,G" none none
    fsEmpty [7] (by decide) (by decide) (by decide) (by decide) (by decide)

end Steve
